import Mathlib

/-!
Verification development for the scroll-driven rocket-launch animation
(`src/components/ThreeScene.tsx`).  The timeline engine, the exhaust
particle pool and the camera smoothing step are embedded shallowly:
numbers become exact rationals `ℚ` (the source arithmetic is plain IEEE
expressions with no overflow-relevant behaviour), the per-tick mutation of
the three.js scene graph becomes an explicit state-passing function
`tick : SceneState → ℚ → ℚ → SceneState × OutputData`, and the stochastic
particle respawn draws become an explicit stream of supplied sample
values.  The trigonometric satellite orbit of the final phase is
interpreted over `ℝ`.
-/

/-- Linear interpolation, from `lerp` in ThreeScene.tsx (line 243):
`start * (1 - alpha) + end * alpha`. -/
def lerp (a b alpha : ℚ) : ℚ := a * (1 - alpha) + b * alpha

/-- Cubic ease-in-out, from `easeInOutCubic` (line 244). -/
def easeInOutCubic (t : ℚ) : ℚ :=
  if t < 0.5 then 4 * t * t * t else 1 - (-2 * t + 2) ^ 3 / 2

/-- Quintic ease-in-out, from `easeInOutQuint` (line 245). -/
def easeInOutQuint (t : ℚ) : ℚ :=
  if t < 0.5 then 16 * t * t * t * t * t else 1 - (-2 * t + 2) ^ 5 / 2

/-- A three-component vector over `ℚ` (three.js `Vector3`). -/
structure Vec3 where
  x : ℚ
  y : ℚ
  z : ℚ
deriving DecidableEq, Repr

/-- One exhaust particle, from the pool construction (lines 680-687):
`{ position, velocity, age, lifetime }` (the `size` field of the source
object is written once and never read, so it is omitted). -/
structure Particle where
  position : Vec3
  velocity : Vec3
  age : ℚ
  lifetime : ℚ
deriving DecidableEq, Repr

/-- Respawn assignment of `updateExhaust` (lines 720-723).  The seven
random draws of one particle update are supplied as `r`: `r 0` is the
respawn test draw, `r 1` the lifetime draw, `r 2`/`r 3` the position
draws, `r 4`/`r 5`/`r 6` the velocity draws. -/
def respawnParticle (r : Fin 7 → ℚ) : Particle :=
  { age := 0
    lifetime := lerp 0.8 1.5 (r 1)
    position := ⟨(r 2 - 0.5) * 1.5, 0, (r 3 - 0.5) * 1.5⟩
    velocity := ⟨(r 4 - 0.5) * 8, lerp (-50) (-80) (r 5), (r 6 - 0.5) * 8⟩ }

/-- Integration step of `updateExhaust` (lines 730-731):
`position += velocity * dt; velocity.y *= 0.99`. -/
def integrateParticle (dt : ℚ) (q : Particle) : Particle :=
  { q with
    position := ⟨q.position.x + q.velocity.x * dt,
                 q.position.y + q.velocity.y * dt,
                 q.position.z + q.velocity.z * dt⟩
    velocity := ⟨q.velocity.x, q.velocity.y * 0.99, q.velocity.z⟩ }

/-- Result of one per-particle update: the new particle record and the
rendered-position buffer entry written for its slot. -/
structure StepRes where
  particle : Particle
  buffer : Vec3
deriving DecidableEq, Repr

/-- One per-particle update of `updateExhaust` (lines 714-746), given the
previous buffer entry `buf` of the slot.  `age += dt`; if the particle is
past its lifetime it either respawns (with probability `intensity`, i.e.
when the draw `r 0 < intensity`) and then still integrates this tick, or
only its rendered y-coordinate is set to the sentinel `-999` (`continue`
in the source: the stale buffer x/z and the aged particle record are
kept); otherwise it integrates normally. -/
def stepParticle (dt intensity : ℚ) (r : Fin 7 → ℚ) (buf : Vec3) (q0 : Particle) : StepRes :=
  let q1 : Particle := { q0 with age := q0.age + dt }
  if q1.age > q1.lifetime then
    if r 0 < intensity then
      let q2 := integrateParticle dt (respawnParticle r)
      ⟨q2, q2.position⟩
    else
      ⟨q1, ⟨buf.x, -999, buf.z⟩⟩
  else
    let q2 := integrateParticle dt q1
    ⟨q2, q2.position⟩

/-- Pool capacity, from `PARTICLE_COUNT` (line 667). -/
def PARTICLE_COUNT : ℕ := 5001

/-- One `updateExhaust(deltaTime, intensity)` call over the whole pool
(lines 708-753).  Each slot carries its particle and its rendered-position
buffer entry; `rs i` supplies the random draws of slot `i`. -/
def updateExhaust (dt intensity : ℚ) (rs : ℕ → Fin 7 → ℚ) :
    List (Particle × Vec3) → List (Particle × Vec3)
  | [] => []
  | (q, b) :: rest =>
      let res := stepParticle dt intensity (rs 0) b q
      (res.particle, res.buffer) :: updateExhaust dt intensity (fun n => rs (n + 1)) rest

/-- The freshly constructed pool (lines 680-689): every particle dead
(`age = 999`, `lifetime = 0`, zero position/velocity) and every buffer
entry hidden at `y = -999`. -/
def initPool : List (Particle × Vec3) :=
  List.replicate PARTICLE_COUNT (⟨⟨0, 0, 0⟩, ⟨0, 0, 0⟩, 999, 0⟩, ⟨0, -999, 0⟩)

/-- A sequence of `updateExhaust` calls: each entry is
`(deltaTime, intensity, random draws)`. -/
def runPool : List (ℚ × ℚ × (ℕ → Fin 7 → ℚ)) → List (Particle × Vec3) → List (Particle × Vec3)
  | [], pool => pool
  | (dt, intensity, rs) :: calls, pool => runPool calls (updateExhaust dt intensity rs pool)

/-- Total delta time accumulated over a sequence of calls. -/
def totalDt (calls : List (ℚ × ℚ × (ℕ → Fin 7 → ℚ))) : ℚ :=
  (calls.map (fun c => c.1)).sum

/-- Number of particles of the pool that are within their lifetime. -/
def aliveCount (pool : List (Particle × Vec3)) : ℕ :=
  pool.countP (fun e => e.1.age ≤ e.1.lifetime)

/-- Earth radius, from `earthRadius` (line 565). -/
def earthRadiusQ : ℚ := 50

/-- Launchpad height of the space scene, from `launchpadY = earthRadius + 3`
(line 859). -/
def launchpadY : ℚ := earthRadiusQ + 3

/-- Ground level of the ground scene, from `groundLaunchY` (line 860). -/
def groundLaunchY : ℚ := 0

/-- Rocket y in the Pre-Launch Countdown phase (line 866). -/
def yPreLaunch (_p : ℚ) : ℚ := groundLaunchY

/-- Rocket y in the Ignition Sequence phase (line 875). -/
def yIgnition (_p : ℚ) : ℚ := groundLaunchY

/-- Rocket y in the Ground Liftoff phase (lines 883-885). -/
def yGroundLiftoff (p : ℚ) : ℚ :=
  lerp groundLaunchY (groundLaunchY + 50) (easeInOutCubic ((p - 0.10) / 0.25))

/-- Rocket y in the Ascending to Orbit phase (lines 893-894). -/
def yAscending (p : ℚ) : ℚ :=
  lerp (groundLaunchY + 50) launchpadY (easeInOutQuint ((p - 0.35) / 0.15))

/-- Rocket y in the Orbital Approach phase (line 906). -/
def yOrbitalApproach (_p : ℚ) : ℚ := launchpadY

/-- Rocket y in the Launch Preparation phase (line 913). -/
def yLaunchPrep (_p : ℚ) : ℚ := launchpadY

/-- Rocket y in the Orbital Liftoff and Ascent phase (lines 920-921). -/
def yOrbitalLiftoff (p : ℚ) : ℚ :=
  lerp launchpadY (launchpadY + 250) (easeInOutCubic ((p - 0.58) / 0.14))

/-- Rocket y in the Orbital Ascent / Booster Separation phase
(lines 928-930). -/
def yBoosterPhase (p : ℚ) : ℚ :=
  lerp (launchpadY + 250) (launchpadY + 500) (easeInOutCubic ((p - 0.72) / 0.12))

/-- Rocket y in the Fairing Separation phase (lines 957-958). -/
def yFairing (p : ℚ) : ℚ :=
  lerp (launchpadY + 500) (launchpadY + 600) (easeInOutCubic ((p - 0.84) / 0.10))

/-- Rocket y in the Orbital Operations phase (lines 974-975). -/
def yOrbitalOps (p : ℚ) : ℚ :=
  lerp (launchpadY + 600) (launchpadY + 580) (easeInOutCubic ((p - 0.94) / 0.06))

/-- Satellite pose as carried in the scene graph: either a plain position
(set at construction, or at release in the Fairing Separation phase,
lines 966-970) or a point of the inclined orbit circle determined by an
orbit angle (lines 984-986, interpreted over `ℝ` by `SatPose.toWorld`). -/
inductive SatPose where
  | fixedAt (v : Vec3) : SatPose
  | orbit (angle : ℚ) : SatPose
deriving DecidableEq, Repr

/-- The scene-graph state a tick reads and writes (everything the `animate`
callback of lines 833-1073 mutates besides the particle pool, the camera
and the telemetry throttle): rocket group y, scene visibility flags, the
two booster group poses, the two fairing half poses (only `position.x` and
`rotation.z` are ever animated), satellite visibility and pose, the solar
panel deployment parameter (the source sets the panel rotations to
`lerp(±π/2, 0, d)` with `d = min(1, phaseProgress * 3)`, line 993-994; `d`
is the rational content of that pose), and the orbit-time accumulator. -/
structure SceneState where
  rocketY : ℚ
  groundVisible : Bool
  earthVisible : Bool
  starsVisible : Bool
  booster0pos : Vec3
  booster1pos : Vec3
  booster0rotZ : ℚ
  booster1rotZ : ℚ
  fairingLx : ℚ
  fairingRx : ℚ
  fairingLrotZ : ℚ
  fairingRrotZ : ℚ
  satVisible : Bool
  satPose : SatPose
  panelDeploy : ℚ
  orbitTime : ℚ
deriving DecidableEq, Repr

/-- Per-tick derived output (the `missionData` record of line 852 plus the
`exhaustIntensity` scalar of line 853). -/
structure OutputData where
  phase : String
  altitude : ℚ
  velocity : ℚ
  exhaust : ℚ
deriving DecidableEq, Repr

/-- The scene-graph state right after construction: rocket on the ground
(line 650), ground/earth/stars groups visible (group visibility defaults
to true; line 562 sets the ground group explicitly), boosters at
`(±3.5, 7, 0)` with no roll (line 648), fairing halves at `x = 0` with no
roll (lines 644-645), satellite hidden at the origin (line 663), solar
panels stowed (deployment 0, lines 660-661), orbit accumulator 0
(line 761). -/
def initState : SceneState :=
  { rocketY := 0
    groundVisible := true
    earthVisible := true
    starsVisible := true
    booster0pos := ⟨-3.5, 7, 0⟩
    booster1pos := ⟨3.5, 7, 0⟩
    booster0rotZ := 0
    booster1rotZ := 0
    fairingLx := 0
    fairingRx := 0
    fairingLrotZ := 0
    fairingRrotZ := 0
    satVisible := false
    satPose := SatPose.fixedAt ⟨0, 0, 0⟩
    panelDeploy := 0
    orbitTime := 0 }

/-- Branch `p <= 0.05` of the dispatch (lines 864-871): pre-launch on the
ground. -/
def tickPreLaunch (s : SceneState) (p : ℚ) : SceneState × OutputData :=
  ({ s with rocketY := yPreLaunch p,
            groundVisible := true, earthVisible := false, starsVisible := false },
   { phase := "Pre-Launch Countdown", altitude := 0, velocity := 0, exhaust := 0 })

/-- Branch `p <= 0.10` (lines 872-880): ignition on the ground. -/
def tickIgnition (s : SceneState) (p : ℚ) : SceneState × OutputData :=
  ({ s with rocketY := yIgnition p,
            groundVisible := true, earthVisible := false, starsVisible := false },
   { phase := "Ignition Sequence", altitude := 0, velocity := 0,
     exhaust := lerp 0 0.3 ((p - 0.05) / 0.05) })

/-- Branch `p <= 0.35` (lines 881-890): liftoff from the ground. -/
def tickGroundLiftoff (s : SceneState) (p : ℚ) : SceneState × OutputData :=
  ({ s with rocketY := yGroundLiftoff p,
            groundVisible := true, earthVisible := false, starsVisible := false },
   { phase := "Ground Liftoff", altitude := yGroundLiftoff p * 2,
     velocity := lerp 0 0.18 (easeInOutCubic ((p - 0.10) / 0.25)),
     exhaust := min 0.7 (easeInOutCubic ((p - 0.10) / 0.25) * 1.2) })

/-- Branch `p <= 0.50` (lines 891-903): ground-to-space transition with the
two cross-fade ramps gating the visibility flags. -/
def tickAscending (s : SceneState) (p : ℚ) : SceneState × OutputData :=
  let phaseProgress := easeInOutQuint ((p - 0.35) / 0.15)
  let fadeOut := max 0 (min 1 ((phaseProgress - 0.5) / 0.35))
  let fadeIn := max 0 (min 1 ((phaseProgress - 0.05) / 0.5))
  ({ s with rocketY := yAscending p,
            groundVisible := decide (fadeOut < 0.98),
            earthVisible := decide (fadeIn > 0.02),
            starsVisible := decide (fadeIn > 0.12) },
   { phase := "Ascending to Orbit", altitude := yAscending p * 5,
     velocity := lerp 0.18 0.9 phaseProgress,
     exhaust := lerp 0.45 0.08 phaseProgress })

/-- Branch `p <= 0.53` (lines 905-911): orbital approach. -/
def tickOrbitalApproach (s : SceneState) (p : ℚ) : SceneState × OutputData :=
  ({ s with rocketY := yOrbitalApproach p,
            groundVisible := false, earthVisible := true, starsVisible := true },
   { phase := "Orbital Approach", altitude := 0, velocity := 0, exhaust := 0 })

/-- Branch `p <= 0.58` (lines 912-918): launch preparation. -/
def tickLaunchPrep (s : SceneState) (p : ℚ) : SceneState × OutputData :=
  ({ s with rocketY := yLaunchPrep p,
            groundVisible := false, earthVisible := true, starsVisible := true },
   { phase := "Launch Preparation", altitude := 0, velocity := 0,
     exhaust := lerp 0 0.1 ((p - 0.53) / 0.05) })

/-- Branch `p <= 0.72` (lines 919-926): orbital liftoff and ascent. -/
def tickOrbitalLiftoff (s : SceneState) (p : ℚ) : SceneState × OutputData :=
  let phaseProgress := easeInOutCubic ((p - 0.58) / 0.14)
  ({ s with rocketY := yOrbitalLiftoff p,
            groundVisible := false, earthVisible := true, starsVisible := true },
   { phase := "Orbital Liftoff & Ascent",
     altitude := (yOrbitalLiftoff p - earthRadiusQ) * 5,
     velocity := lerp 0 7.5 phaseProgress,
     exhaust := min 1 (phaseProgress * 5) })

/-- Branch `p <= 0.84` (lines 927-955): orbital ascent with the nested
booster-separation rule gated by the `stageSep = 0.3` threshold on the
local eased progress. -/
def tickBoosterSep (s : SceneState) (p : ℚ) : SceneState × OutputData :=
  let phaseProgress := easeInOutCubic ((p - 0.72) / 0.12)
  let stageSep : ℚ := 0.3
  let s1 :=
    if phaseProgress > stageSep then
      let sepProg := (phaseProgress - stageSep) / (1 - stageSep)
      { s with rocketY := yBoosterPhase p,
               groundVisible := false, earthVisible := true, starsVisible := true,
               booster0pos := ⟨lerp (-3.5) (-20 - sepProg * 30) sepProg,
                               lerp 0 (-10) sepProg, s.booster0pos.z⟩,
               booster1pos := ⟨lerp 3.5 (20 + sepProg * 30) sepProg,
                               lerp 0 (-10) sepProg, s.booster1pos.z⟩,
               booster0rotZ := lerp 0 (-0.3) sepProg,
               booster1rotZ := lerp 0 0.3 sepProg }
    else
      { s with rocketY := yBoosterPhase p,
               groundVisible := false, earthVisible := true, starsVisible := true,
               booster0pos := ⟨-3.5, 0, -2⟩, booster1pos := ⟨3.5, 0, -2⟩,
               booster0rotZ := 0, booster1rotZ := 0 }
  (s1,
   { phase := if phaseProgress > stageSep then "Booster Separation" else "Orbital Ascent",
     altitude := (yBoosterPhase p - earthRadiusQ) * 5,
     velocity := lerp 7.5 9 phaseProgress,
     exhaust := if phaseProgress > stageSep then
                  lerp 1 0.7 ((phaseProgress - stageSep) / (1 - stageSep))
                else 1 })

/-- Branch `p <= 0.94` (lines 956-972): fairing separation; the satellite
becomes visible once, at the rocket position raised by 30, and keeps that
pose on re-entry (`if (!satelliteGroup.visible)` in the source). -/
def tickFairingSep (s : SceneState) (p : ℚ) : SceneState × OutputData :=
  let phaseProgress := easeInOutCubic ((p - 0.84) / 0.10)
  let s1 :=
    { s with rocketY := yFairing p,
             groundVisible := false, earthVisible := true, starsVisible := true,
             fairingLx := lerp 0 (-5) phaseProgress,
             fairingLrotZ := lerp 0 (-0.2) phaseProgress,
             fairingRx := lerp 0 5 phaseProgress,
             fairingRrotZ := lerp 0 0.2 phaseProgress }
  let s2 :=
    if s.satVisible then s1
    else { s1 with satVisible := true,
                   satPose := SatPose.fixedAt ⟨0, yFairing p + 30, 0⟩ }
  (s2,
   { phase := "Fairing Separation",
     altitude := (yFairing p - earthRadiusQ) * 5,
     velocity := lerp 15 27.6 phaseProgress,
     exhaust := 0 })

/-- Final branch (lines 973-998): orbital operations.  The orbit-time
accumulator advances by `dt * 0.5` and drives the satellite pose; the
visibility flags are *not* written by this branch.  `exhaustIntensity`
keeps its per-tick initial value 0 (line 853). -/
def tickOrbitalOps (s : SceneState) (p dt : ℚ) : SceneState × OutputData :=
  let phaseProgress := easeInOutCubic ((p - 0.94) / 0.06)
  let orbitT := s.orbitTime + dt * 0.5
  ({ s with rocketY := yOrbitalOps p,
            satPose := SatPose.orbit orbitT,
            panelDeploy := min 1 (phaseProgress * 3),
            orbitTime := orbitT },
   { phase := "Orbital Operations",
     altitude := (earthRadiusQ + 75 - earthRadiusQ) * 5,
     velocity := 27.6,
     exhaust := 0 })

/-- One tick of the animation-phase dispatch (lines 851-999): given the
carried scene state, the normalized progress `p = scrollState.percent / 100`
and the frame delta time, produce the updated scene state and the derived
per-tick output.  Each branch function above is translated from the
corresponding branch of the source `if`/`else if` chain. -/
def tick (s : SceneState) (p dt : ℚ) : SceneState × OutputData :=
  if p ≤ 0.05 then tickPreLaunch s p
  else if p ≤ 0.10 then tickIgnition s p
  else if p ≤ 0.35 then tickGroundLiftoff s p
  else if p ≤ 0.50 then tickAscending s p
  else if p ≤ 0.53 then tickOrbitalApproach s p
  else if p ≤ 0.58 then tickLaunchPrep s p
  else if p ≤ 0.72 then tickOrbitalLiftoff s p
  else if p ≤ 0.84 then tickBoosterSep s p
  else if p ≤ 0.94 then tickFairingSep s p
  else tickOrbitalOps s p dt

/-- Rocket y as a function of progress alone (`rocketGroup.position.y` is
rewritten by every branch of the dispatch, so it does not depend on the
incoming state). -/
def rocketYOf (p : ℚ) : ℚ := (tick initState p 0).1.rocketY

/-- Exhaust intensity as a function of progress alone. -/
def exhaustOf (p : ℚ) : ℚ := (tick initState p 0).2.exhaust

/-- Telemetry altitude as a function of progress alone. -/
def altitudeOf (p : ℚ) : ℚ := (tick initState p 0).2.altitude

/-- Telemetry phase name as a function of progress alone. -/
def phaseOf (p : ℚ) : String := (tick initState p 0).2.phase

/-- Camera smoothing fraction per tick, from line 1064:
`p <= 0.51 ? 0.012 : 0.04`. -/
def lerpFactor (p : ℚ) : ℚ := if p ≤ 0.51 then 0.012 else 0.04

/-- three.js `Vector3.lerp`: each component moves the fraction `f` of the
remaining distance toward the target. -/
def vec3Lerp (a b : Vec3) (f : ℚ) : Vec3 :=
  ⟨a.x + (b.x - a.x) * f, a.y + (b.y - a.y) * f, a.z + (b.z - a.z) * f⟩

/-- One per-tick camera position smoothing step, from line 1065:
`camera.position.lerp(targetCamPos, lerpFactor)`. -/
def camStep (pos target : Vec3) (p : ℚ) : Vec3 := vec3Lerp pos target (lerpFactor p)

/-- Squared euclidean distance between two points. -/
def camDistSq (a b : Vec3) : ℚ :=
  (a.x - b.x) ^ 2 + (a.y - b.y) ^ 2 + (a.z - b.z) ^ 2

/-- The camera position after `n` smoothing ticks with the target held
fixed. -/
def iterCamStep (pos target : Vec3) (p : ℚ) : ℕ → Vec3
  | 0 => pos
  | n + 1 => camStep (iterCamStep pos target p n) target p

/-- Orbit radius of the satellite in the Orbital Operations phase, from
`orbitRadius = earthRadius + 75` (line 979). -/
noncomputable def orbitRadiusR : ℝ := (earthRadiusQ : ℝ) + 75

/-- Orbit inclination, from `orbitInclination = Math.PI / 8` (line 981). -/
noncomputable def orbitInclR : ℝ := Real.pi / 8

/-- Satellite world position on the inclined orbit circle as a function of
the orbit angle, from lines 984-986:
`x = cos(angle) * radius`, `y = sin(angle) * radius * sin(inclination)`,
`z = sin(angle) * radius * cos(inclination)`. -/
noncomputable def satOrbitPos (a : ℝ) : ℝ × ℝ × ℝ :=
  (Real.cos a * orbitRadiusR,
   Real.sin a * orbitRadiusR * Real.sin orbitInclR,
   Real.sin a * orbitRadiusR * Real.cos orbitInclR)

/-- Distance of the orbiting satellite from the world origin. -/
noncomputable def satDistFromOrigin (a : ℝ) : ℝ :=
  Real.sqrt ((satOrbitPos a).1 ^ 2 + (satOrbitPos a).2.1 ^ 2 + (satOrbitPos a).2.2 ^ 2)

/-- World-space interpretation of a carried satellite pose. -/
noncomputable def SatPose.toWorld : SatPose → ℝ × ℝ × ℝ
  | SatPose.fixedAt v => ((v.x : ℝ), (v.y : ℝ), (v.z : ℝ))
  | SatPose.orbit a => satOrbitPos (a : ℝ)

theorem easeInOutCubic_mem (t : ℚ) (h0 : 0 ≤ t) (h1 : t ≤ 1) :
    0 ≤ easeInOutCubic t ∧ easeInOutCubic t ≤ 1 := by
  unfold easeInOutCubic
  split_ifs with h
  · norm_num at h ⊢
    constructor <;> nlinarith [sq_nonneg t, sq_nonneg (1 - t)]
  · norm_num at h ⊢
    constructor <;> nlinarith [sq_nonneg (1 - t), sq_nonneg t, mul_nonneg h0 h0]

theorem easeInOutQuint_mem (t : ℚ) (h0 : 0 ≤ t) (h1 : t ≤ 1) :
    0 ≤ easeInOutQuint t ∧ easeInOutQuint t ≤ 1 := by
  unfold easeInOutQuint
  split_ifs with h
  · norm_num at h ⊢
    constructor <;>
      nlinarith [sq_nonneg t, sq_nonneg (1 - t), mul_nonneg h0 h0,
                 mul_nonneg (mul_nonneg h0 h0) h0, mul_nonneg (mul_nonneg (mul_nonneg h0 h0) h0) h0]
  · norm_num at h ⊢
    have hu0 : (0:ℚ) ≤ 2 - 2 * t := by linarith
    have hu1 : 2 - 2 * t ≤ 1 := by linarith
    constructor <;>
      nlinarith [mul_nonneg hu0 hu0, mul_nonneg (mul_nonneg hu0 hu0) hu0,
                 mul_nonneg (mul_nonneg (mul_nonneg hu0 hu0) hu0) hu0,
                 mul_nonneg (mul_nonneg (mul_nonneg (mul_nonneg hu0 hu0) hu0) hu0) hu0]
set_option maxHeartbeats 2000000 in
/-- C4: for every progress p in [0,1] the phase dispatch produces an
exhaust intensity in [0,1], and for every p beyond the fairing-separation
boundary (p > 0.84, i.e. the Fairing Separation and Orbital Operations
phases) the intensity is exactly 0. -/
theorem exhaust_intensity_range (p : ℚ) (h0 : 0 ≤ p) (h1 : p ≤ 1) :
    0 ≤ exhaustOf p ∧ exhaustOf p ≤ 1 ∧ (0.84 < p → exhaustOf p = 0) := by
  unfold exhaustOf tick
  split_ifs with hb1 hb2 hb3 hb4 hb5 hb6 hb7 hb8 hb9
  · exact ⟨by norm_num [tickPreLaunch], by norm_num [tickPreLaunch],
           fun hc => absurd hc (by norm_num; linarith)⟩
  · have ht0 : (0:ℚ) ≤ (p - 0.05) / 0.05 := div_nonneg (by norm_num at hb1 ⊢; linarith) (by norm_num)
    have ht1 : (p - 0.05) / 0.05 ≤ 1 := by
      rw [div_le_one (by norm_num)]; norm_num at hb2 ⊢; linarith
    refine ⟨?_, ?_, fun hc => absurd hc (by norm_num at hb2 ⊢; linarith)⟩ <;>
      simp only [tickIgnition, lerp] <;> nlinarith
  · have ht0 : (0:ℚ) ≤ (p - 0.10) / 0.25 := div_nonneg (by norm_num at hb2 ⊢; linarith) (by norm_num)
    have ht1 : (p - 0.10) / 0.25 ≤ 1 := by
      rw [div_le_one (by norm_num)]; norm_num at hb3 ⊢; linarith
    obtain ⟨e0, e1⟩ := easeInOutCubic_mem _ ht0 ht1
    refine ⟨?_, ?_, fun hc => absurd hc (by norm_num at hb3 ⊢; linarith)⟩ <;>
      simp only [tickGroundLiftoff]
    · exact le_min (by norm_num) (by nlinarith)
    · exact (min_le_left _ _).trans (by norm_num)
  · have ht0 : (0:ℚ) ≤ (p - 0.35) / 0.15 := div_nonneg (by norm_num at hb3 ⊢; linarith) (by norm_num)
    have ht1 : (p - 0.35) / 0.15 ≤ 1 := by
      rw [div_le_one (by norm_num)]; norm_num at hb4 ⊢; linarith
    obtain ⟨e0, e1⟩ := easeInOutQuint_mem _ ht0 ht1
    refine ⟨?_, ?_, fun hc => absurd hc (by norm_num at hb4 ⊢; linarith)⟩ <;>
      simp only [tickAscending, lerp] <;> nlinarith
  · exact ⟨by norm_num [tickOrbitalApproach], by norm_num [tickOrbitalApproach],
           fun hc => absurd hc (by norm_num at hb5 ⊢; linarith)⟩
  · have ht0 : (0:ℚ) ≤ (p - 0.53) / 0.05 := div_nonneg (by norm_num at hb5 ⊢; linarith) (by norm_num)
    have ht1 : (p - 0.53) / 0.05 ≤ 1 := by
      rw [div_le_one (by norm_num)]; norm_num at hb6 ⊢; linarith
    refine ⟨?_, ?_, fun hc => absurd hc (by norm_num at hb6 ⊢; linarith)⟩ <;>
      simp only [tickLaunchPrep, lerp] <;> nlinarith
  · have ht0 : (0:ℚ) ≤ (p - 0.58) / 0.14 := div_nonneg (by norm_num at hb6 ⊢; linarith) (by norm_num)
    have ht1 : (p - 0.58) / 0.14 ≤ 1 := by
      rw [div_le_one (by norm_num)]; norm_num at hb7 ⊢; linarith
    obtain ⟨e0, e1⟩ := easeInOutCubic_mem _ ht0 ht1
    refine ⟨?_, ?_, fun hc => absurd hc (by norm_num at hb7 ⊢; linarith)⟩ <;>
      simp only [tickOrbitalLiftoff]
    · exact le_min (by norm_num) (by nlinarith)
    · exact min_le_left _ _
  · have ht0 : (0:ℚ) ≤ (p - 0.72) / 0.12 := div_nonneg (by norm_num at hb7 ⊢; linarith) (by norm_num)
    have ht1 : (p - 0.72) / 0.12 ≤ 1 := by
      rw [div_le_one (by norm_num)]; norm_num at hb8 ⊢; linarith
    obtain ⟨e0, e1⟩ := easeInOutCubic_mem _ ht0 ht1
    refine ⟨?_, ?_, fun hc => absurd hc (by norm_num at hb8 ⊢; linarith)⟩ <;>
      simp only [tickBoosterSep, lerp] <;> split_ifs with hsep <;>
      norm_num at hsep e0 e1 ⊢ <;> nlinarith
  · exact ⟨by norm_num [tickFairingSep], by norm_num [tickFairingSep],
           fun _ => by simp [tickFairingSep]⟩
  · exact ⟨by norm_num [tickOrbitalOps], by norm_num [tickOrbitalOps],
           fun _ => by simp [tickOrbitalOps]⟩
/-- Witness for `exhaust_intensity_range` at `p = 0.9`. -/
theorem exhaust_intensity_range_witness :
    0 ≤ exhaustOf 0.9 ∧ exhaustOf 0.9 ≤ 1 ∧ ((0.84:ℚ) < 0.9 → exhaustOf 0.9 = 0) :=
  exhaust_intensity_range 0.9 (by norm_num) (by norm_num)

/-- C10 counterexample: at the end of the Ascending to Orbit phase the
reported altitude is `(earthRadius + 3) * 5 = 265`, not `2515` as the
claim computes. -/
theorem altitude_at_half_counterexample :
    altitudeOf 0.50 = 265 ∧ (265 : ℚ) ≠ 2515 := by
  constructor
  · norm_num [altitudeOf, tick, tickAscending, yAscending, easeInOutQuint, lerp,
              launchpadY, earthRadiusQ, groundLaunchY]
  · norm_num

/-- C10 amended: telemetry altitude is not monotone in progress — at
`p = 0.50` the reported altitude equals rocket height times 5, i.e.
`(earthRadius + 3) * 5 = 265`, while for every p in the following Orbital
Approach and Launch Preparation phases (`0.50 < p <= 0.58`) the reported
altitude is exactly 0, so there are `p1 < p2` in `[0,1]` with
`altitude(p1) > altitude(p2)`. -/
theorem altitude_nonmonotone :
    altitudeOf 0.50 = (earthRadiusQ + 3) * 5 ∧ (earthRadiusQ + 3) * 5 = 265 ∧
    (∀ p : ℚ, 0.50 < p → p ≤ 0.58 → altitudeOf p = 0) ∧
    (∃ p1 p2 : ℚ, 0 ≤ p1 ∧ p1 < p2 ∧ p2 ≤ 1 ∧ altitudeOf p2 < altitudeOf p1) := by
  refine ⟨?_, by norm_num [earthRadiusQ], ?_, ?_⟩
  · norm_num [altitudeOf, tick, tickAscending, yAscending, easeInOutQuint, lerp,
              launchpadY, earthRadiusQ, groundLaunchY]
  · intro p hp1 hp2
    unfold altitudeOf tick
    split_ifs with hb1 hb2 hb3 hb4 hb5 hb6
    · exact absurd hb1 (by norm_num at hp1 ⊢; linarith)
    · exact absurd hb2 (by norm_num at hp1 ⊢; linarith)
    · exact absurd hb3 (by norm_num at hp1 ⊢; linarith)
    · exact absurd hb4 (by norm_num at hp1 ⊢; linarith)
    · rfl
    · rfl
  · refine ⟨0.50, 0.53, by norm_num, by norm_num, by norm_num, ?_⟩
    have h1 : altitudeOf 0.50 = 265 := by
      norm_num [altitudeOf, tick, tickAscending, yAscending, easeInOutQuint, lerp,
                launchpadY, earthRadiusQ, groundLaunchY]
    have h2 : altitudeOf 0.53 = 0 := by
      norm_num [altitudeOf, tick, tickOrbitalApproach]
    rw [h1, h2]; norm_num

/-- Witness for the universally quantified part of `altitude_nonmonotone`
at `p = 0.55`. -/
theorem altitude_nonmonotone_witness : altitudeOf 0.55 = 0 :=
  altitude_nonmonotone.2.2.1 0.55 (by norm_num) (by norm_num)

/-- C9 counterexample: progress is not clamped — at `p = 1.06` the final
phase extrapolates its eased interpolation past its endpoint and the
rocket pose (553) differs from the pose at the nearest in-range progress
`p = 1` (633). -/
theorem progress_out_of_range_counterexample :
    rocketYOf 1.06 = 553 ∧ rocketYOf 1 = 633 ∧ (553 : ℚ) ≠ 633 := by
  refine ⟨?_, ?_, by norm_num⟩ <;>
    norm_num [rocketYOf, tick, tickOrbitalOps, yOrbitalOps, easeInOutCubic, lerp,
              launchpadY, earthRadiusQ]

/-- C9 amended: the tick never clamps progress and never faults (it is a
total function).  A sample `p <= 0` behaves exactly like `p = 0` (the
first branch catches it and its outputs are constant), but a sample
`p > 1` extrapolates the final phase beyond its endpoint, so its scene
state differs from the state at the nearest in-range value
(rocket y 553 at `p = 1.06` against 633 at `p = 1`). -/
theorem progress_out_of_range_behaviour :
    (∀ (s : SceneState) (p dt : ℚ), p ≤ 0 → tick s p dt = tick s 0 dt) ∧
    rocketYOf 1.06 = 553 ∧ rocketYOf 1 = 633 := by
  refine ⟨?_, ?_, ?_⟩
  · intro s p dt hp
    unfold tick
    rw [if_pos (show p ≤ 0.05 by norm_num; linarith),
        if_pos (show (0:ℚ) ≤ 0.05 by norm_num)]
    rfl
  · norm_num [rocketYOf, tick, tickOrbitalOps, yOrbitalOps, easeInOutCubic, lerp,
              launchpadY, earthRadiusQ]
  · norm_num [rocketYOf, tick, tickOrbitalOps, yOrbitalOps, easeInOutCubic, lerp,
              launchpadY, earthRadiusQ]

/-- Witness for `progress_out_of_range_behaviour` at `p = -1`. -/
theorem progress_out_of_range_behaviour_witness :
    tick initState (-1) 0 = tick initState 0 0 :=
  progress_out_of_range_behaviour.1 initState (-1) 0 (by norm_num)
/-- C2 counterexample: satellite visibility depends on which phases were
visited on earlier ticks.  Two ticks with identical progress (0.3), delta
time and orbit-accumulator value (the fairing-separation tick does not
touch the accumulator) disagree on the satellite visibility flag,
depending on whether a fairing-separation tick happened before. -/
theorem satellite_visibility_history_counterexample :
    (tick initState 0.9 (1/60)).1.orbitTime = initState.orbitTime ∧
    (tick (tick initState 0.9 (1/60)).1 0.3 (1/60)).1.satVisible = true ∧
    (tick initState 0.3 (1/60)).1.satVisible = false := by
  have h09 : tick initState 0.9 (1/60) = tickFairingSep initState 0.9 := by
    norm_num [tick]
  have h03 : ∀ s : SceneState, tick s 0.3 (1/60) = tickGroundLiftoff s 0.3 := by
    intro s; norm_num [tick]
  have hsatA : (tickFairingSep initState 0.9).1.satVisible = true := by
    simp [tickFairingSep, initState]
  refine ⟨?_, ?_, ?_⟩
  · rw [h09]; simp [tickFairingSep, initState]
  · rw [h09, h03]; exact hsatA
  · rw [h03]; rfl

set_option maxHeartbeats 4000000 in
/-- C2 amended: the per-tick outputs (phase name, telemetry, exhaust
intensity) and the freshly rewritten state fields (rocket y; the
visibility flags up to `p <= 0.94`; the orbit accumulator and, in the
orbital phase, the satellite pose, given equal incoming accumulator
values) are pure functions of the tick inputs and do not depend on the
rest of the carried state; satellite visibility, satellite release pose,
booster poses and fairing poses are carried state and do depend on which
phases were visited on earlier ticks. -/
theorem tick_derived_purity (s1 s2 : SceneState) (p dt : ℚ)
    (h : s1.orbitTime = s2.orbitTime) :
    (tick s1 p dt).2 = (tick s2 p dt).2 ∧
    (tick s1 p dt).1.rocketY = (tick s2 p dt).1.rocketY ∧
    (tick s1 p dt).1.orbitTime = (tick s2 p dt).1.orbitTime ∧
    (0.94 < p → (tick s1 p dt).1.satPose = (tick s2 p dt).1.satPose) ∧
    (p ≤ 0.94 →
      (tick s1 p dt).1.groundVisible = (tick s2 p dt).1.groundVisible ∧
      (tick s1 p dt).1.earthVisible = (tick s2 p dt).1.earthVisible ∧
      (tick s1 p dt).1.starsVisible = (tick s2 p dt).1.starsVisible) := by
  unfold tick
  split_ifs with hb1 hb2 hb3 hb4 hb5 hb6 hb7 hb8 hb9
  · exact ⟨rfl, rfl, h, fun hc => absurd hc (by norm_num at hb1 ⊢; linarith),
           fun _ => ⟨rfl, rfl, rfl⟩⟩
  · exact ⟨rfl, rfl, h, fun hc => absurd hc (by norm_num at hb2 ⊢; linarith),
           fun _ => ⟨rfl, rfl, rfl⟩⟩
  · exact ⟨rfl, rfl, h, fun hc => absurd hc (by norm_num at hb3 ⊢; linarith),
           fun _ => ⟨rfl, rfl, rfl⟩⟩
  · exact ⟨rfl, rfl, h, fun hc => absurd hc (by norm_num at hb4 ⊢; linarith),
           fun _ => ⟨rfl, rfl, rfl⟩⟩
  · exact ⟨rfl, rfl, h, fun hc => absurd hc (by norm_num at hb5 ⊢; linarith),
           fun _ => ⟨rfl, rfl, rfl⟩⟩
  · exact ⟨rfl, rfl, h, fun hc => absurd hc (by norm_num at hb6 ⊢; linarith),
           fun _ => ⟨rfl, rfl, rfl⟩⟩
  · exact ⟨rfl, rfl, h, fun hc => absurd hc (by norm_num at hb7 ⊢; linarith),
           fun _ => ⟨rfl, rfl, rfl⟩⟩
  · refine ⟨rfl, ?_, ?_, fun hc => absurd hc (by norm_num at hb8 ⊢; linarith), fun _ => ?_⟩
    · simp only [tickBoosterSep]; split_ifs <;> rfl
    · simp only [tickBoosterSep]; split_ifs <;> exact h
    · simp only [tickBoosterSep]; split_ifs <;> exact ⟨rfl, rfl, rfl⟩
  · refine ⟨rfl, ?_, ?_, fun hc => absurd hc (not_lt.mpr hb9), fun _ => ?_⟩
    · simp only [tickFairingSep]; split_ifs <;> rfl
    · simp only [tickFairingSep]; split_ifs <;> exact h
    · simp only [tickFairingSep]; split_ifs <;> exact ⟨rfl, rfl, rfl⟩
  · refine ⟨rfl, rfl, ?_, fun _ => ?_, fun hpc => absurd hpc hb9⟩
    · show s1.orbitTime + dt * 0.5 = s2.orbitTime + dt * 0.5
      rw [h]
    · show SatPose.orbit (s1.orbitTime + dt * 0.5) = SatPose.orbit (s2.orbitTime + dt * 0.5)
      rw [h]

/-- Witness for `tick_derived_purity`: the derived output at `p = 0.2` is
the same from the fresh state and from the state left by a fairing-phase
tick. -/
theorem tick_derived_purity_witness :
    (tick initState 0.2 0).2 = (tick (tick initState 0.9 (1/60)).1 0.2 0).2 :=
  (tick_derived_purity initState (tick initState 0.9 (1/60)).1 0.2 0
    (by norm_num [tick, tickFairingSep, initState])).1
/-- C1 counterexample: booster poses are discontinuous at the `p = 0.72`
boundary.  A tick at `p = 0.72` (still the Orbital Liftoff phase, which
never writes boosters) leaves booster 0 at its construction height
`y = 7`, while the next tick just above the boundary (`p = 0.724`, local
eased progress far below the separation threshold) snaps it to `y = 0`. -/
theorem boundary_booster_pose_counterexample :
    (tick initState 0.72 (1/60)).1.booster0pos.y = 7 ∧
    (tick (tick initState 0.72 (1/60)).1 0.724 (1/60)).1.booster0pos.y = 0 ∧
    ((7:ℚ) ≠ 0) := by
  have h72 : tick initState 0.72 (1/60) = tickOrbitalLiftoff initState 0.72 := by
    norm_num [tick]
  have h724 : ∀ s : SceneState, tick s 0.724 (1/60) = tickBoosterSep s 0.724 := by
    intro s; norm_num [tick]
  refine ⟨?_, ?_, by norm_num⟩
  · rw [h72]; rfl
  · rw [h72, h724]
    norm_num [tickBoosterSep, easeInOutCubic]

set_option maxHeartbeats 2000000 in
/-- C1 amended: the rocket pose rules of adjacent phases agree at every
shared boundary (the end pose of each phase equals the start pose of the
next), and the fairing-separation pose rule starts from the construction
pose at `p = 0.84`; phases at or below `p = 0.72` never write the booster
poses, so entering the Orbital Ascent phase is discontinuous for them:
the boosters snap from the construction pose `(±3.5, 7, 0)` to
`(±3.5, 0, -2)` just above the boundary. -/
theorem phase_boundary_continuity_amended :
    (yPreLaunch 0.05 = yIgnition 0.05 ∧ yIgnition 0.10 = yGroundLiftoff 0.10 ∧
     yGroundLiftoff 0.35 = yAscending 0.35 ∧ yAscending 0.50 = yOrbitalApproach 0.50 ∧
     yOrbitalApproach 0.53 = yLaunchPrep 0.53 ∧ yLaunchPrep 0.58 = yOrbitalLiftoff 0.58 ∧
     yOrbitalLiftoff 0.72 = yBoosterPhase 0.72 ∧ yBoosterPhase 0.84 = yFairing 0.84 ∧
     yFairing 0.94 = yOrbitalOps 0.94) ∧
    (lerp 0 (-5) (easeInOutCubic ((0.84 - 0.84) / 0.10)) = initState.fairingLx ∧
     lerp 0 (-0.2) (easeInOutCubic ((0.84 - 0.84) / 0.10)) = initState.fairingLrotZ) ∧
    (∀ (s : SceneState) (p dt : ℚ), p ≤ 0.72 →
      (tick s p dt).1.booster0pos = s.booster0pos ∧
      (tick s p dt).1.booster1pos = s.booster1pos ∧
      (tick s p dt).1.booster0rotZ = s.booster0rotZ ∧
      (tick s p dt).1.booster1rotZ = s.booster1rotZ) ∧
    initState.booster0pos = ⟨-3.5, 7, 0⟩ ∧
    (∀ (s : SceneState) (p dt : ℚ), 0.72 < p → p ≤ 0.73 →
      (tick s p dt).1.booster0pos = ⟨-3.5, 0, -2⟩ ∧
      (tick s p dt).1.booster1pos = ⟨3.5, 0, -2⟩) := by
  refine ⟨⟨?_, ?_, ?_, ?_, ?_, ?_, ?_, ?_, ?_⟩, ⟨?_, ?_⟩, ?_, rfl, ?_⟩
  · rfl
  · norm_num [yIgnition, yGroundLiftoff, easeInOutCubic, lerp, groundLaunchY]
  · norm_num [yGroundLiftoff, yAscending, easeInOutCubic, easeInOutQuint, lerp,
              groundLaunchY, launchpadY, earthRadiusQ]
  · norm_num [yAscending, yOrbitalApproach, easeInOutQuint, lerp,
              groundLaunchY, launchpadY, earthRadiusQ]
  · rfl
  · norm_num [yLaunchPrep, yOrbitalLiftoff, easeInOutCubic, lerp, launchpadY, earthRadiusQ]
  · norm_num [yOrbitalLiftoff, yBoosterPhase, easeInOutCubic, lerp, launchpadY, earthRadiusQ]
  · norm_num [yBoosterPhase, yFairing, easeInOutCubic, lerp, launchpadY, earthRadiusQ]
  · norm_num [yFairing, yOrbitalOps, easeInOutCubic, lerp, launchpadY, earthRadiusQ]
  · norm_num [lerp, easeInOutCubic, initState]
  · norm_num [lerp, easeInOutCubic, initState]
  · intro s p dt hp
    unfold tick
    split_ifs with hb1 hb2 hb3 hb4 hb5 hb6 hb7
    all_goals exact ⟨rfl, rfl, rfl, rfl⟩
  · intro s p dt hp1 hp2
    have hcu : easeInOutCubic ((p - 0.72) / 0.12) ≤ 0.3 := by
      unfold easeInOutCubic
      rw [if_pos (show (p - 0.72) / 0.12 < 0.5 by
        rw [div_lt_iff (by norm_num)]; norm_num at hp2 ⊢; linarith)]
      have ht0 : (0:ℚ) ≤ (p - 0.72) / 0.12 := by
        apply div_nonneg _ (by norm_num); norm_num at hp1 ⊢; linarith
      have ht1 : (p - 0.72) / 0.12 ≤ 1 / 12 := by
        rw [div_le_iff (by norm_num)]; norm_num at hp2 ⊢; linarith
      norm_num at ht0 ht1 ⊢
      nlinarith [mul_le_mul ht1 ht1 ht0 (by norm_num : (0:ℚ) ≤ 1/12),
                 mul_nonneg ht0 ht0, mul_nonneg (mul_nonneg ht0 ht0) ht0]
    unfold tick
    split_ifs with hb1 hb2 hb3 hb4 hb5 hb6 hb7 hb8
    · exact absurd hb1 (by norm_num at hp1 ⊢; linarith)
    · exact absurd hb2 (by norm_num at hp1 ⊢; linarith)
    · exact absurd hb3 (by norm_num at hp1 ⊢; linarith)
    · exact absurd hb4 (by norm_num at hp1 ⊢; linarith)
    · exact absurd hb5 (by norm_num at hp1 ⊢; linarith)
    · exact absurd hb6 (by norm_num at hp1 ⊢; linarith)
    · exact absurd hb7 (by norm_num at hp1 ⊢; linarith)
    · simp only [tickBoosterSep]
      rw [if_neg (not_lt.mpr hcu)]
      exact ⟨rfl, rfl⟩
    · exact absurd hp2 (by norm_num at hb8 ⊢; linarith)
    · exact absurd hp2 (by norm_num at hb8 ⊢; linarith)

/-- Witness for the quantified parts of `phase_boundary_continuity_amended`
at `p = 0.7` and `p = 0.725`. -/
theorem phase_boundary_continuity_amended_witness :
    (tick initState 0.7 0).1.booster0pos = initState.booster0pos ∧
    (tick initState 0.725 0).1.booster0pos = ⟨-3.5, 0, -2⟩ :=
  ⟨(phase_boundary_continuity_amended.2.2.1 initState 0.7 0 (by norm_num)).1,
   (phase_boundary_continuity_amended.2.2.2.2 initState 0.725 0 (by norm_num) (by norm_num)).1⟩
set_option maxHeartbeats 1000000 in
/-- C3: per-particle update rule.  Age always grows by dt first; past the
lifetime the particle either respawns with probability `intensity` (draw
`r 0 < intensity`) — age reset to 0, fresh lifetime in [0.8, 1.5],
position a random emitter offset with x,z in [-0.75, 0.75], velocity with
x,z in [-4, 4] and y in [-80, -50] — and then continues with this tick's
integration, or only its rendered y is set to the sentinel -999 and
nothing else is updated this tick; otherwise it integrates
`position += velocity * dt` and `velocity.y *= 0.99`. -/
theorem particle_step_rule (dt intensity : ℚ) (r : Fin 7 → ℚ) (buf : Vec3) (q : Particle)
    (hr : ∀ i, 0 ≤ r i ∧ r i < 1) :
    (q.age + dt > q.lifetime → r 0 < intensity →
      stepParticle dt intensity r buf q =
        ⟨integrateParticle dt (respawnParticle r),
         (integrateParticle dt (respawnParticle r)).position⟩ ∧
      (respawnParticle r).age = 0 ∧
      0.8 ≤ (respawnParticle r).lifetime ∧ (respawnParticle r).lifetime ≤ 1.5 ∧
      -0.75 ≤ (respawnParticle r).position.x ∧ (respawnParticle r).position.x ≤ 0.75 ∧
      (respawnParticle r).position.y = 0 ∧
      -0.75 ≤ (respawnParticle r).position.z ∧ (respawnParticle r).position.z ≤ 0.75 ∧
      -4 ≤ (respawnParticle r).velocity.x ∧ (respawnParticle r).velocity.x ≤ 4 ∧
      -80 ≤ (respawnParticle r).velocity.y ∧ (respawnParticle r).velocity.y ≤ -50 ∧
      -4 ≤ (respawnParticle r).velocity.z ∧ (respawnParticle r).velocity.z ≤ 4) ∧
    (q.age + dt > q.lifetime → ¬ r 0 < intensity →
      stepParticle dt intensity r buf q =
        ⟨{ q with age := q.age + dt }, ⟨buf.x, -999, buf.z⟩⟩) ∧
    (¬ q.age + dt > q.lifetime →
      stepParticle dt intensity r buf q =
        ⟨integrateParticle dt { q with age := q.age + dt },
         (integrateParticle dt { q with age := q.age + dt }).position⟩ ∧
      (integrateParticle dt { q with age := q.age + dt }).age = q.age + dt ∧
      (integrateParticle dt { q with age := q.age + dt }).position.x
        = q.position.x + q.velocity.x * dt ∧
      (integrateParticle dt { q with age := q.age + dt }).position.y
        = q.position.y + q.velocity.y * dt ∧
      (integrateParticle dt { q with age := q.age + dt }).position.z
        = q.position.z + q.velocity.z * dt ∧
      (integrateParticle dt { q with age := q.age + dt }).velocity.y
        = q.velocity.y * 0.99) := by
  refine ⟨fun h1 h2 => ?_, fun h1 h2 => ?_, fun h1 => ?_⟩
  · refine ⟨?_, rfl, ?_, ?_, ?_, ?_, rfl, ?_, ?_, ?_, ?_, ?_, ?_, ?_, ?_⟩
    · simp only [stepParticle]
      rw [if_pos h1, if_pos h2]
    · simp only [respawnParticle, lerp]; norm_num
      linarith [(hr 1).1, (hr 1).2]
    · simp only [respawnParticle, lerp]; norm_num
      linarith [(hr 1).1, (hr 1).2]
    · simp only [respawnParticle]; norm_num
      linarith [(hr 2).1, (hr 2).2]
    · simp only [respawnParticle]; norm_num
      linarith [(hr 2).1, (hr 2).2]
    · simp only [respawnParticle]; norm_num
      linarith [(hr 3).1, (hr 3).2]
    · simp only [respawnParticle]; norm_num
      linarith [(hr 3).1, (hr 3).2]
    · simp only [respawnParticle]; norm_num
      linarith [(hr 4).1, (hr 4).2]
    · simp only [respawnParticle]; norm_num
      linarith [(hr 4).1, (hr 4).2]
    · simp only [respawnParticle, lerp]; norm_num
      linarith [(hr 5).1, (hr 5).2]
    · simp only [respawnParticle, lerp]; norm_num
      linarith [(hr 5).1, (hr 5).2]
    · simp only [respawnParticle]; norm_num
      linarith [(hr 6).1, (hr 6).2]
    · simp only [respawnParticle]; norm_num
      linarith [(hr 6).1, (hr 6).2]
  · simp only [stepParticle]
    rw [if_pos h1, if_neg h2]
  · refine ⟨?_, rfl, rfl, rfl, rfl, rfl⟩
    simp only [stepParticle]
    rw [if_neg h1]

/-- Witness for `particle_step_rule` on a dead particle with unit delta
time and full intensity: it respawns and integrates, and the fresh
lifetime is at least 0.8 s. -/
theorem particle_step_rule_witness :
    stepParticle 1 1 (fun _ => 1/2) ⟨0, -999, 0⟩ ⟨⟨0, 0, 0⟩, ⟨0, 0, 0⟩, 999, 0⟩ =
      ⟨integrateParticle 1 (respawnParticle (fun _ => 1/2)),
       (integrateParticle 1 (respawnParticle (fun _ => 1/2))).position⟩ ∧
    0.8 ≤ (respawnParticle (fun _ => 1/2)).lifetime := by
  have h := particle_step_rule 1 1 (fun _ => 1/2) ⟨0, -999, 0⟩ ⟨⟨0, 0, 0⟩, ⟨0, 0, 0⟩, 999, 0⟩
    (fun i => ⟨by norm_num, by norm_num⟩)
  exact ⟨(h.1 (by norm_num) (by norm_num)).1, (h.1 (by norm_num) (by norm_num)).2.2.1⟩
theorem updateExhaust_length (dt intensity : ℚ) (rs : ℕ → Fin 7 → ℚ)
    (pool : List (Particle × Vec3)) :
    (updateExhaust dt intensity rs pool).length = pool.length := by
  induction pool generalizing rs with
  | nil => rfl
  | cons e rest ih =>
      obtain ⟨q, b⟩ := e
      simp only [updateExhaust, List.length_cons, ih]

theorem runPool_length (calls : List (ℚ × ℚ × (ℕ → Fin 7 → ℚ)))
    (pool : List (Particle × Vec3)) :
    (runPool calls pool).length = pool.length := by
  induction calls generalizing pool with
  | nil => rfl
  | cons c cs ih =>
      obtain ⟨dt, intensity, rs⟩ := c
      rw [runPool, ih, updateExhaust_length]

/-- C6: the pool size is fixed at construction to `PARTICLE_COUNT = 5001`
and is preserved by any sequence of `updateExhaust` calls; no particle is
allocated or removed — a particle that dies without respawning keeps its
slot, carrying its aged record, with only the rendered y of its buffer
entry replaced by the sentinel -999. -/
theorem pool_capacity_invariant :
    initPool.length = PARTICLE_COUNT ∧
    (∀ (calls : List (ℚ × ℚ × (ℕ → Fin 7 → ℚ))) (pool : List (Particle × Vec3)),
      (runPool calls pool).length = pool.length) ∧
    (∀ (dt intensity : ℚ) (rs : ℕ → Fin 7 → ℚ) (pool : List (Particle × Vec3))
       (i : ℕ) (q : Particle) (b : Vec3),
      pool[i]? = some (q, b) → q.age + dt > q.lifetime → ¬ (rs i) 0 < intensity →
      (updateExhaust dt intensity rs pool)[i]?
        = some ({ q with age := q.age + dt }, ⟨b.x, -999, b.z⟩)) := by
  refine ⟨by rw [initPool]; exact List.length_replicate _ _, runPool_length, ?_⟩
  intro dt intensity rs pool
  induction pool generalizing rs with
  | nil => intro i q b hget; simp at hget
  | cons e rest ih =>
      intro i q b hget h1 h2
      obtain ⟨q0, b0⟩ := e
      cases i with
      | zero =>
          simp only [List.getElem?_cons_zero, Option.some.injEq, Prod.mk.injEq] at hget
          obtain ⟨rfl, rfl⟩ := hget
          simp only [updateExhaust, List.getElem?_cons_zero, Option.some.injEq]
          simp only [stepParticle]
          rw [if_pos h1, if_neg h2]
      | succ n =>
          simp only [List.getElem?_cons_succ] at hget
          simp only [updateExhaust, List.getElem?_cons_succ]
          exact ih (fun k => rs (k + 1)) n q b hget h1 h2

/-- Witness for `pool_capacity_invariant`: one dead particle that draws no
respawn keeps its slot with the sentinel buffer. -/
theorem pool_capacity_invariant_witness :
    (updateExhaust 1 0 (fun _ _ => 0)
        [(⟨⟨2, 3, 4⟩, ⟨0, 0, 0⟩, 5, 1⟩, ⟨2, 3, 4⟩)])[0]?
      = some (⟨⟨2, 3, 4⟩, ⟨0, 0, 0⟩, 5 + 1, 1⟩, ⟨2, -999, 4⟩) :=
  pool_capacity_invariant.2.2 1 0 (fun _ _ => 0)
    [(⟨⟨2, 3, 4⟩, ⟨0, 0, 0⟩, 5, 1⟩, ⟨2, 3, 4⟩)] 0 ⟨⟨2, 3, 4⟩, ⟨0, 0, 0⟩, 5, 1⟩ ⟨2, 3, 4⟩
    rfl (by norm_num) (by norm_num)
theorem updateExhaust_zero_shift (dt T : ℚ) (rs : ℕ → Fin 7 → ℚ)
    (hrs : ∀ n, 0 ≤ rs n 0) (pool : List (Particle × Vec3)) :
    (updateExhaust dt 0 rs pool).map (fun e => (e.1.age + T, e.1.lifetime))
      = pool.map (fun e => (e.1.age + dt + T, e.1.lifetime)) := by
  induction pool generalizing rs with
  | nil => rfl
  | cons e rest ih =>
      obtain ⟨q, b⟩ := e
      simp only [updateExhaust, List.map_cons]
      rw [ih (fun k => rs (k + 1)) (fun n => hrs (n + 1))]
      congr 1
      simp only [stepParticle]
      split_ifs with hc hc2
      · exact absurd hc2 (not_lt.mpr (hrs 0))
      · rfl
      · rfl

/-- C7: with intensity exactly 0 no particle ever respawns — over any
sequence of zero-intensity calls every particle keeps its lifetime and
merely accumulates age (`age + totalDt`) — and once the accumulated delta
time exceeds the maximum lifetime 1.5 s, every particle of a pool whose
ages were nonnegative and lifetimes at most 1.5 is past its lifetime, so
the alive count is 0. -/
theorem zero_intensity_drain (calls : List (ℚ × ℚ × (ℕ → Fin 7 → ℚ)))
    (pool : List (Particle × Vec3))
    (hint : ∀ c ∈ calls, c.2.1 = 0)
    (hrs : ∀ c ∈ calls, ∀ n, 0 ≤ c.2.2 n 0) :
    ((runPool calls pool).map (fun e => (e.1.age, e.1.lifetime))
       = pool.map (fun e => (e.1.age + totalDt calls, e.1.lifetime))) ∧
    ((∀ e ∈ pool, 0 ≤ e.1.age ∧ e.1.lifetime ≤ 1.5) → 1.5 < totalDt calls →
      aliveCount (runPool calls pool) = 0) := by
  have hmap : ∀ (cs : List (ℚ × ℚ × (ℕ → Fin 7 → ℚ))),
      (∀ c ∈ cs, c.2.1 = 0) → (∀ c ∈ cs, ∀ n, 0 ≤ c.2.2 n 0) →
      ∀ pl : List (Particle × Vec3),
      (runPool cs pl).map (fun e => (e.1.age, e.1.lifetime))
        = pl.map (fun e => (e.1.age + totalDt cs, e.1.lifetime)) := by
    intro cs
    induction cs with
    | nil =>
        intro _ _ pl
        simp [runPool, totalDt]
    | cons c cs ihc =>
        intro h0 hr pl
        obtain ⟨dt, intensity, rs⟩ := c
        have hi0 : intensity = 0 := h0 _ (List.mem_cons_self _ _)
        subst hi0
        rw [runPool, ihc (fun c hc => h0 c (List.mem_cons_of_mem _ hc))
              (fun c hc => hr c (List.mem_cons_of_mem _ hc)),
            updateExhaust_zero_shift dt (totalDt cs) rs
              (fun n => hr _ (List.mem_cons_self _ _) n)]
        have htot : totalDt ((dt, 0, rs) :: cs) = dt + totalDt cs := by
          simp [totalDt]
        rw [htot]
        simp only [add_assoc]
  refine ⟨hmap calls hint hrs pool, fun hpool htot => ?_⟩
  unfold aliveCount
  rw [List.countP_eq_zero]
  intro e he
  have hmem : (e.1.age, e.1.lifetime)
      ∈ (runPool calls pool).map (fun e => (e.1.age, e.1.lifetime)) :=
    List.mem_map_of_mem _ he
  rw [hmap calls hint hrs pool] at hmem
  obtain ⟨orig, horig, heq⟩ := List.mem_map.mp hmem
  simp only [Prod.mk.injEq] at heq
  obtain ⟨ha, hl⟩ := heq
  obtain ⟨ho0, ho1⟩ := hpool orig horig
  simp only [decide_eq_true_eq]
  norm_num at htot ho1 ⊢
  rw [← ha, ← hl]
  linarith

/-- Witness for `zero_intensity_drain`: a single zero-intensity call of
2 seconds empties a one-particle pool. -/
theorem zero_intensity_drain_witness :
    aliveCount (runPool [(2, 0, fun _ _ => 0)]
      [(⟨⟨0, 0, 0⟩, ⟨0, 0, 0⟩, 0, 1⟩, ⟨0, 0, 0⟩)]) = 0 :=
  (zero_intensity_drain [(2, 0, fun _ _ => 0)]
      [(⟨⟨0, 0, 0⟩, ⟨0, 0, 0⟩, 0, 1⟩, ⟨0, 0, 0⟩)]
      (by intro c hc; rw [List.mem_singleton] at hc; subst hc; rfl)
      (by intro c hc n; rw [List.mem_singleton] at hc; subst hc; norm_num)).2
    (by intro e he; rw [List.mem_singleton] at he; subst he
        exact ⟨by norm_num, by norm_num⟩)
    (by norm_num [totalDt])
theorem lerpFactor_bounds (p : ℚ) : 0 < 1 - lerpFactor p ∧ 1 - lerpFactor p < 1 := by
  unfold lerpFactor
  split_ifs <;> norm_num

theorem camDistSq_nonneg (a b : Vec3) : 0 ≤ camDistSq a b := by
  unfold camDistSq
  positivity

theorem camStep_distSq (pos target : Vec3) (p : ℚ) :
    camDistSq (camStep pos target p) target
      = (1 - lerpFactor p) ^ 2 * camDistSq pos target := by
  simp only [camStep, vec3Lerp, camDistSq]
  ring

theorem iterCamStep_distSq (pos target : Vec3) (p : ℚ) (n : ℕ) :
    camDistSq (iterCamStep pos target p n) target
      = ((1 - lerpFactor p) ^ 2) ^ n * camDistSq pos target := by
  induction n with
  | zero => simp [iterCamStep]
  | succ m ih =>
      rw [iterCamStep, camStep_distSq, ih, pow_succ]
      ring

set_option maxHeartbeats 1000000 in
/-- C8: with the target held fixed, each tick's camera smoothing step
(interpolation toward the target by the fraction 0.012 when p <= 0.51 and
0.04 otherwise) moves each coordinate by the same factor `1 - f` strictly
between 0 and 1 (so the step never crosses past the target), scales the
squared distance to the target by the constant `(1 - f)^2 < 1` (so the
distance is non-increasing), and after enough iterations the squared
distance falls below any positive bound. -/
theorem camera_smoothing_convergence (pos target : Vec3) (p : ℚ) :
    ((camStep pos target p).x - target.x = (1 - lerpFactor p) * (pos.x - target.x) ∧
     (camStep pos target p).y - target.y = (1 - lerpFactor p) * (pos.y - target.y) ∧
     (camStep pos target p).z - target.z = (1 - lerpFactor p) * (pos.z - target.z)) ∧
    0 < 1 - lerpFactor p ∧ 1 - lerpFactor p < 1 ∧
    camDistSq (camStep pos target p) target
      = (1 - lerpFactor p) ^ 2 * camDistSq pos target ∧
    camDistSq (camStep pos target p) target ≤ camDistSq pos target ∧
    (∀ n : ℕ, camDistSq (iterCamStep pos target p n) target
      = ((1 - lerpFactor p) ^ 2) ^ n * camDistSq pos target) ∧
    (∀ ε : ℚ, 0 < ε → ∃ N : ℕ, ∀ m : ℕ, N ≤ m →
      camDistSq (iterCamStep pos target p m) target < ε) := by
  obtain ⟨hf0, hf1⟩ := lerpFactor_bounds p
  have hd0 : 0 ≤ camDistSq pos target := camDistSq_nonneg pos target
  have hr0 : 0 ≤ (1 - lerpFactor p) ^ 2 := sq_nonneg _
  have hr1 : (1 - lerpFactor p) ^ 2 < 1 := by nlinarith
  refine ⟨⟨?_, ?_, ?_⟩, hf0, hf1, camStep_distSq pos target p, ?_, iterCamStep_distSq pos target p, ?_⟩
  · simp only [camStep, vec3Lerp]; ring
  · simp only [camStep, vec3Lerp]; ring
  · simp only [camStep, vec3Lerp]; ring
  · rw [camStep_distSq]
    nlinarith
  · intro ε hε
    obtain ⟨N, hN⟩ := exists_pow_lt_of_lt_one
      (div_pos hε (by linarith : (0:ℚ) < camDistSq pos target + 1)) hr1
    refine ⟨N, fun m hm => ?_⟩
    rw [iterCamStep_distSq]
    have hstep : ((1 - lerpFactor p) ^ 2) ^ m ≤ ((1 - lerpFactor p) ^ 2) ^ N :=
      pow_le_pow_of_le_one hr0 (le_of_lt hr1) hm
    have hNd : ((1 - lerpFactor p) ^ 2) ^ N * (camDistSq pos target + 1) < ε :=
      (lt_div_iff (by linarith : (0:ℚ) < camDistSq pos target + 1)).mp hN
    have hpm : 0 ≤ ((1 - lerpFactor p) ^ 2) ^ N := pow_nonneg hr0 N
    nlinarith [mul_le_mul_of_nonneg_right hstep hd0]

/-- Witness for `camera_smoothing_convergence` at a concrete position,
target and progress. -/
theorem camera_smoothing_convergence_witness :
    camDistSq (camStep ⟨3, 4, 12⟩ ⟨0, 0, 0⟩ 1) ⟨0, 0, 0⟩
      = (1 - lerpFactor 1) ^ 2 * camDistSq ⟨3, 4, 12⟩ ⟨0, 0, 0⟩ :=
  (camera_smoothing_convergence ⟨3, 4, 12⟩ ⟨0, 0, 0⟩ 1).2.2.2.1
theorem orbitRadiusR_eq : orbitRadiusR = 125 := by
  unfold orbitRadiusR earthRadiusQ
  norm_num

/-- C5 counterexample: two different orbit-accumulator values (0 and 2π,
i.e. two different elapsed-time samples one orbital period apart) give the
same satellite position, so "different elapsed times yield different
satellite positions" fails as a universal statement. -/
theorem satellite_orbit_period_counterexample :
    satOrbitPos (2 * Real.pi) = satOrbitPos 0 ∧ (2 * Real.pi : ℝ) ≠ 0 := by
  constructor
  · unfold satOrbitPos
    rw [Real.cos_two_pi, Real.sin_two_pi, Real.cos_zero, Real.sin_zero]
  · have := Real.pi_pos
    intro h
    nlinarith

set_option maxHeartbeats 1000000 in
/-- C5 amended: in the Orbital Operations phase (p > 0.94) the tick drives
the satellite pose from the orbit accumulator alone, the orbiting
satellite always sits at distance exactly `earthRadius + 75 = 125` from
the world origin on the inclined circle, and two orbit-accumulator values
give the same position exactly when they differ by a whole number of
turns (2πk) — in particular the accumulator values 0 and π give different
positions. -/
theorem satellite_orbit_time_driven :
    (∀ a : ℝ, satDistFromOrigin a = 125) ∧
    (∀ a b : ℝ, satOrbitPos a = satOrbitPos b ↔ ∃ k : ℤ, a - b = 2 * Real.pi * k) ∧
    satOrbitPos 0 ≠ satOrbitPos Real.pi ∧
    (∀ (s : SceneState) (p dt : ℚ), 0.94 < p →
      (tick s p dt).1.satPose = SatPose.orbit (s.orbitTime + dt * 0.5)) := by
  have hsi : 0 < Real.sin orbitInclR := by
    apply Real.sin_pos_of_pos_of_lt_pi
    · unfold orbitInclR; positivity
    · unfold orbitInclR; linarith [Real.pi_pos]
  have hR : orbitRadiusR = 125 := orbitRadiusR_eq
  refine ⟨?_, ?_, ?_, ?_⟩
  · intro a
    unfold satDistFromOrigin satOrbitPos
    have h1 := Real.sin_sq_add_cos_sq a
    have h2 := Real.sin_sq_add_cos_sq orbitInclR
    have hsum : (Real.cos a * orbitRadiusR) ^ 2
        + (Real.sin a * orbitRadiusR * Real.sin orbitInclR) ^ 2
        + (Real.sin a * orbitRadiusR * Real.cos orbitInclR) ^ 2 = 125 ^ 2 := by
      rw [hR]
      linear_combination (125 ^ 2 * (Real.sin a) ^ 2) * h2 + (125:ℝ) ^ 2 * h1
    rw [hsum]
    rw [show ((125:ℝ) ^ 2) = 125 ^ 2 from rfl]
    exact Real.sqrt_sq (by norm_num)
  · intro a b
    constructor
    · intro h
      unfold satOrbitPos at h
      rw [Prod.ext_iff, Prod.ext_iff] at h
      obtain ⟨hx, hy, hz⟩ := h
      have hRne : orbitRadiusR ≠ 0 := by rw [hR]; norm_num
      have hcos : Real.cos a = Real.cos b := by
        have := mul_right_cancel₀ hRne hx
        exact this
      have hsin : Real.sin a = Real.sin b := by
        have hy' : Real.sin a * orbitRadiusR = Real.sin b * orbitRadiusR :=
          mul_right_cancel₀ (ne_of_gt hsi) hy
        exact mul_right_cancel₀ hRne hy'
      have hangle : (a : Real.Angle) = (b : Real.Angle) :=
        Real.Angle.cos_sin_inj hcos hsin
      exact Real.Angle.angle_eq_iff_two_pi_dvd_sub.mp hangle
    · rintro ⟨k, hk⟩
      have ha : a = b + (k : ℝ) * (2 * Real.pi) := by linarith
      unfold satOrbitPos
      rw [ha, Real.cos_add_int_mul_two_pi, Real.sin_add_int_mul_two_pi]
  · intro h
    unfold satOrbitPos at h
    rw [Prod.ext_iff] at h
    have hx := h.1
    rw [Real.cos_zero, Real.cos_pi, hR] at hx
    norm_num at hx
  · intro s p dt hp
    unfold tick
    split_ifs with hb1 hb2 hb3 hb4 hb5 hb6 hb7 hb8 hb9
    · exact absurd hb1 (by norm_num at hp ⊢; linarith)
    · exact absurd hb2 (by norm_num at hp ⊢; linarith)
    · exact absurd hb3 (by norm_num at hp ⊢; linarith)
    · exact absurd hb4 (by norm_num at hp ⊢; linarith)
    · exact absurd hb5 (by norm_num at hp ⊢; linarith)
    · exact absurd hb6 (by norm_num at hp ⊢; linarith)
    · exact absurd hb7 (by norm_num at hp ⊢; linarith)
    · exact absurd hb8 (by norm_num at hp ⊢; linarith)
    · exact absurd hb9 (not_le.mpr hp)
    · rfl

/-- Witness for `satellite_orbit_time_driven`: a tick at `p = 1` puts the
satellite pose on the orbit at the advanced accumulator angle. -/
theorem satellite_orbit_time_driven_witness :
    (tick initState 1 0).1.satPose = SatPose.orbit (initState.orbitTime + 0 * 0.5) :=
  satellite_orbit_time_driven.2.2.2 initState 1 0 (by norm_num)
